import Mathlib

/-!
Verification of the CDEC metadata-fetch pipeline (wxdb/cdec.py).

The Python module fetches the CDEC station directory, then issues one
per-station HTTP request (through grequests with a pool size of 1), parses
each JSON payload into a pandas DataFrame, concatenates the per-station
results, projects them onto a canonical column set, normalizes null-like
cells to None, and hands the table to the database sink.

The shallow embedding below models:
  - scalar cell values (strings, numbers, pandas NaN, Python None);
  - JSON payloads and the json.loads / data['STATION'] extraction;
  - the pandas operations the module uses, at the usage shapes of the
    module: DataFrame construction from a list of record dicts, iloc[0],
    concat(axis=1) with outer alignment on row labels, transpose,
    reset_index, column assignment, and where(notnull, None);
  - the network as an oracle mapping a station id to an optional response
    (None models a failed request, as grequests.map returns None there);
  - the gevent pool used by grequests.map(r, size=1) as a small
    labelled-transition system, to state the concurrency-ceiling claim.

Modelling notes (restrictions that are documented, not hidden):
  - pd.DataFrame(data['STATION']) is modelled at the JSON shapes,
    following the constructor's dispatch: lists of record dicts, lists of
    row lists, one-dimensional lists (records as plain scalars or mixed
    objects), and dicts of equal-length arrays all construct a frame and
    the station is appended - even when the payload deviates from the
    expected station-record shape; only the shapes the constructor
    rejects (a scalar, a dict of scalars or of unequal arrays, a
    dict-first or array-first list with elements of another kind) raise
    and are swallowed as a skip;
  - non-scalar record fields are stored whole as object cells;
  - dtype coercion is not modelled; cells are untyped values;
  - pandas index unions are taken in order of first appearance.
-/

namespace CDEC

/-- A JSON document, as returned by json.loads: strings, numbers, null,
arrays and objects. -/
inductive Json where
  | jstr : String → Json
  | jnum : Int → Json
  | jnull : Json
  | list : List Json → Json
  | obj : List (String × Json) → Json

mutual

/-- Decidable equality for JSON documents. -/
def Json.decEq : (a b : Json) → Decidable (a = b)
  | .jstr a, .jstr b =>
    if h : a = b then .isTrue (by rw [h])
    else .isFalse (fun hh => h (Json.jstr.inj hh))
  | .jnum a, .jnum b =>
    if h : a = b then .isTrue (by rw [h])
    else .isFalse (fun hh => h (Json.jnum.inj hh))
  | .jnull, .jnull => .isTrue rfl
  | .list a, .list b =>
    match Json.decEqList a b with
    | .isTrue h => .isTrue (by rw [h])
    | .isFalse h => .isFalse (fun hh => h (Json.list.inj hh))
  | .obj a, .obj b =>
    match Json.decEqKV a b with
    | .isTrue h => .isTrue (by rw [h])
    | .isFalse h => .isFalse (fun hh => h (Json.obj.inj hh))
  | .jstr _, .jnum _ => .isFalse (fun h => Json.noConfusion h)
  | .jstr _, .jnull => .isFalse (fun h => Json.noConfusion h)
  | .jstr _, .list _ => .isFalse (fun h => Json.noConfusion h)
  | .jstr _, .obj _ => .isFalse (fun h => Json.noConfusion h)
  | .jnum _, .jstr _ => .isFalse (fun h => Json.noConfusion h)
  | .jnum _, .jnull => .isFalse (fun h => Json.noConfusion h)
  | .jnum _, .list _ => .isFalse (fun h => Json.noConfusion h)
  | .jnum _, .obj _ => .isFalse (fun h => Json.noConfusion h)
  | .jnull, .jstr _ => .isFalse (fun h => Json.noConfusion h)
  | .jnull, .jnum _ => .isFalse (fun h => Json.noConfusion h)
  | .jnull, .list _ => .isFalse (fun h => Json.noConfusion h)
  | .jnull, .obj _ => .isFalse (fun h => Json.noConfusion h)
  | .list _, .jstr _ => .isFalse (fun h => Json.noConfusion h)
  | .list _, .jnum _ => .isFalse (fun h => Json.noConfusion h)
  | .list _, .jnull => .isFalse (fun h => Json.noConfusion h)
  | .list _, .obj _ => .isFalse (fun h => Json.noConfusion h)
  | .obj _, .jstr _ => .isFalse (fun h => Json.noConfusion h)
  | .obj _, .jnum _ => .isFalse (fun h => Json.noConfusion h)
  | .obj _, .jnull => .isFalse (fun h => Json.noConfusion h)
  | .obj _, .list _ => .isFalse (fun h => Json.noConfusion h)

/-- Decidable equality for JSON arrays. -/
def Json.decEqList : (a b : List Json) → Decidable (a = b)
  | [], [] => .isTrue rfl
  | [], _ :: _ => .isFalse (fun h => List.noConfusion h)
  | _ :: _, [] => .isFalse (fun h => List.noConfusion h)
  | x :: xs, y :: ys =>
    match Json.decEq x y with
    | .isFalse h => .isFalse (fun hh => h (List.cons.inj hh).1)
    | .isTrue h1 =>
      match Json.decEqList xs ys with
      | .isTrue h2 => .isTrue (by rw [h1, h2])
      | .isFalse h2 => .isFalse (fun hh => h2 (List.cons.inj hh).2)

/-- Decidable equality for JSON object member lists. -/
def Json.decEqKV : (a b : List (String × Json)) → Decidable (a = b)
  | [], [] => .isTrue rfl
  | [], _ :: _ => .isFalse (fun h => List.noConfusion h)
  | _ :: _, [] => .isFalse (fun h => List.noConfusion h)
  | (k1, v1) :: xs, (k2, v2) :: ys =>
    if hk : k1 = k2 then
      match Json.decEq v1 v2 with
      | .isFalse hv =>
        .isFalse (fun hh => hv (congrArg Prod.snd (List.cons.inj hh).1))
      | .isTrue hv =>
        match Json.decEqKV xs ys with
        | .isTrue ht => .isTrue (by rw [hk, hv, ht])
        | .isFalse ht => .isFalse (fun hh => ht (List.cons.inj hh).2)
    else .isFalse (fun hh => hk (congrArg Prod.fst (List.cons.inj hh).1))

end

instance : DecidableEq Json := Json.decEq

/-- A cell value: a string, an integer, pandas NaN (produced by
alignment when a field is missing), Python None (also JSON null), or a
non-scalar JSON value stored whole as a Python object, as pandas stores
any non-scalar datum. -/
inductive Value where
  | str : String → Value
  | num : Int → Value
  | nan : Value
  | null : Value
  | object : Json → Value
deriving DecidableEq

/-- A record dict for one station: field name to cell value, with
Python-dict key semantics (unique keys). -/
abbrev Record := List (String × Value)

/-- Insert a key/value pair into an association list with Python dict
semantics: an existing key keeps its position but takes the new value. -/
def insertKV : List (String × α) → String → α → List (String × α)
  | [], k, v => [(k, v)]
  | (k', v') :: rest, k, v =>
    if k' = k then (k', v) :: rest else (k', v') :: insertKV rest k v

/-- Build a Python dict from parsed JSON object members: first-occurrence
key order, last-occurrence value (json.loads semantics). -/
def dictOf (kvs : List (String × α)) : List (String × α) :=
  kvs.foldl (fun acc kv => insertKV acc kv.1 kv.2) []

/-- Look a key up in a parsed JSON object (last occurrence wins, as in the
dict json.loads builds). -/
def lookupJson (kvs : List (String × Json)) (key : String) : Option Json :=
  ((kvs.reverse).find? (fun kv => kv.1 == key)).map (fun kv => kv.2)

/-- A scalar JSON value becomes the matching cell value; arrays and
objects are stored whole as object cells. -/
def valueOfJson : Json → Value
  | .jstr s => .str s
  | .jnum n => .num n
  | .jnull => .null
  | .list xs => .object (.list xs)
  | .obj kvs => .object (.obj kvs)

/-- One record dict from a JSON object: Python dict key semantics; field
values are taken whole, non-scalar values included. -/
def recordOfObj (kvs : List (String × Json)) : Record :=
  dictOf (kvs.map (fun kv => (kv.1, valueOfJson kv.2)))

/-- data['STATION']: string indexing raises TypeError unless data is a
dict, and KeyError when the key is missing. -/
def getStationJson : Json → Option Json
  | .obj kvs => lookupJson kvs "STATION"
  | _ => none

/-- Is this JSON document an object? -/
def Json.isObj : Json → Bool
  | .obj _ => true
  | _ => false

/-- Is this JSON document an array? -/
def Json.isArr : Json → Bool
  | .list _ => true
  | _ => false

/-- An HTTP response: the status code and the result of json.loads on the
body (none when json.loads raises). -/
structure Response where
  status_code : Nat
  body : Option Json

/-- A pandas DataFrame at the shapes this module uses: row labels plus
columns, each column a label with its cell values (column-major). -/
structure Frame where
  index : List Value
  cols : List (Value × List Value)
deriving DecidableEq

/-- A pandas Series (one row extracted by iloc[0]): its name is the row
label, its index the column labels. -/
structure Series where
  name : Value
  index : List Value
  data : List Value
deriving DecidableEq

/-- Remove later duplicates, keeping first-appearance order. -/
def dedupFirstAux (seen : List Value) : List Value → List Value
  | [] => []
  | a :: rest =>
    if a ∈ seen then dedupFirstAux seen rest
    else a :: dedupFirstAux (a :: seen) rest

/-- Look up a record field (keys are unique after dictOf). -/
def lookupRec (r : Record) (k : String) : Option Value :=
  (r.find? (fun kv => kv.1 == k)).map (fun kv => kv.2)

/-- The default RangeIndex of n rows. -/
def rangeIdx (n : Nat) : List Value :=
  (List.range n).map (fun i => Value.num (Int.ofNat i))

/-- pd.DataFrame(list-of-record-dicts): columns are the field names in
first-appearance order, rows are the records, missing fields become NaN,
the index is the default RangeIndex. -/
def pdDataFrame (recs : List Record) : Frame :=
  let keys := dedupFirstAux [] ((recs.map (fun r => r.map (fun kv => Value.str kv.1))).flatten)
  { index := rangeIdx recs.length,
    cols := keys.map (fun k =>
      (k, recs.map (fun r =>
        match k with
        | Value.str s => (lookupRec r s).getD Value.nan
        | _ => Value.nan))) }

/-- df.iloc[0]: the first row as a Series; raises (none) when the frame
has no rows. -/
def Frame.iloc0 (f : Frame) : Option Series :=
  match f.index with
  | [] => none
  | l0 :: _ =>
    some { name := l0, index := f.cols.map (fun c => c.1),
           data := f.cols.map (fun c => c.2.headD Value.nan) }

/-- pd.DataFrame(list-of-row-lists): rows are the sublists, columns the
positions 0..max-1, shorter rows padded with NaN. -/
def rowsFrame (rows : List (List Value)) : Frame :=
  { index := rangeIdx rows.length,
    cols := (List.range ((rows.map List.length).foldl Nat.max 0)).map (fun j =>
      (Value.num (Int.ofNat j), rows.map (fun row => row.getD j Value.nan))) }

/-- The record dict of a JSON item known to be an object. -/
def recordOfItem : Json → Record
  | .obj kvs => recordOfObj kvs
  | _ => []

/-- The cell row of a JSON item known to be an array. -/
def rowOfItem : Json → List Value
  | .list cells => cells.map valueOfJson
  | _ => []

/-- pd.DataFrame(x) on the JSON document x = data['STATION'], following
the constructor's dispatch: a list whose first element is a dict takes
the records path (every element must then be a dict, or the constructor
raises); a list whose first element is an array takes the rows path
(every element must be an array); any other nonempty list is treated as
one-dimensional data, one object column labeled 0 holding every element
as a cell (dicts and arrays included, stored as objects); a dict of
equal-length arrays gives one column per key; everything else (a scalar,
a dict holding scalars or unequal arrays) makes the constructor raise,
which the caller's bare except swallows. -/
def pdDataFrameJson : Json → Option Frame
  | .list [] => some (pdDataFrame [])
  | .list (j :: rest) =>
    match j with
    | .obj _ =>
      if (j :: rest).all Json.isObj then
        some (pdDataFrame ((j :: rest).map recordOfItem))
      else none
    | .list _ =>
      if (j :: rest).all Json.isArr then
        some (rowsFrame ((j :: rest).map rowOfItem))
      else none
    | _ =>
      some { index := rangeIdx (j :: rest).length,
             cols := [(Value.num 0, (j :: rest).map valueOfJson)] }
  | .obj kvs =>
    match dictOf kvs with
    | [] => some (pdDataFrame [])
    | (k0, v0) :: rest =>
      match v0 with
      | .list cells0 =>
        if rest.all (fun kv =>
            match kv.2 with
            | .list cells => cells.length == cells0.length
            | _ => false) then
          some { index := rangeIdx cells0.length,
                 cols := ((k0, v0) :: rest).map (fun kv =>
                   (Value.str kv.1, rowOfItem kv.2)) }
        else none
      | _ => none
  | _ => none

/-- An element of the accumulated result list: a Series (summary mode) or
a DataFrame (fields mode). -/
inductive Entry where
  | series : Series → Entry
  | frame : Frame → Entry
deriving DecidableEq

/-- The row labels an entry aligns on in concat(axis=1). -/
def Entry.rowLabels : Entry → List Value
  | .series s => s.index
  | .frame f => f.index

/-- The columns an entry contributes to concat(axis=1), each with its
cells keyed by row label. -/
def Entry.columns : Entry → List (Value × List (Value × Value))
  | .series s => [(s.name, s.index.zip s.data)]
  | .frame f => f.cols.map (fun c => (c.1, f.index.zip c.2))

/-- Look a row label up in an aligned column. -/
def lookupVal (assoc : List (Value × Value)) (l : Value) : Option Value :=
  (assoc.find? (fun kv => kv.1 == l)).map (fun kv => kv.2)

/-- pd.concat(df, axis=1): outer alignment on row labels; raises ValueError
("No objects to concatenate") on an empty list. -/
def concatAxis1 (dfs : List Entry) : Except String Frame :=
  match dfs with
  | [] => .error "No objects to concatenate"
  | _ :: _ =>
    let unionIdx := dedupFirstAux [] ((dfs.map Entry.rowLabels).flatten)
    .ok { index := unionIdx,
          cols := ((dfs.map Entry.columns).flatten).map (fun c =>
            (c.1, unionIdx.map (fun l => (lookupVal c.2 l).getD Value.nan))) }

/-- df.T: rows and columns swap. -/
def Frame.T (f : Frame) : Frame :=
  { index := f.cols.map (fun c => c.1),
    cols := f.index.enum.map (fun p =>
      (p.2, f.cols.map (fun c => c.2.getD p.1 Value.nan))) }

/-- df.reset_index(): the old row labels become a new first column named
"index" and the index becomes the default RangeIndex. -/
def Frame.reset_index (f : Frame) : Frame :=
  { index := rangeIdx f.index.length,
    cols := (Value.str "index", f.index) :: f.cols }

/-- One response of the per-station loop of multi_station_info: None and
non-OK responses are skipped by the two guards; everything raised inside
the try block is swallowed by the bare except. A payload whose JSON
parses and whose STATION value pd.DataFrame accepts is appended - in
fields mode the whole frame, otherwise d.iloc[0] (an empty frame raises
IndexError there, so nothing is appended). The append precedes the debug
logging line, so the KeyError that line raises on a payload without a
STATION_ID column is swallowed after the fact and does not undo the
append. -/
def processResponse (fields : Bool) (rs : Option Response) : Option Entry :=
  match rs with
  | none => none
  | some r =>
    if r.status_code < 400 then
      if r.status_code = 200 then
        match r.body with
        | none => none
        | some data =>
          match getStationJson data with
          | none => none
          | some station =>
            match pdDataFrameJson station with
            | none => none
            | some d =>
              if fields then some (.frame d)
              else (d.iloc0).map .series
      else none
    else none

/-- The size argument multi_station_info passes to grequests.map: the
module throttles the CDEC requests to one at a time. -/
def grequests_map_size : Nat := 1

/-- grequests.map: one optional response per request, in request order
(the pool size affects scheduling only, not the collected results). -/
def grequests_map (net : Value → Option Response) (_size : Nat)
    (reqs : List Value) : List (Option Response) :=
  reqs.map net

/-- The accumulated per-station result list of multi_station_info. -/
def collectInfo (net : Value → Option Response) (stids : List Value)
    (fields : Bool) : List Entry :=
  (grequests_map net grequests_map_size stids).filterMap (processResponse fields)

/-- multi_station_info: fetch every station, parse, accumulate, then
pd.concat(df, axis=1).T.reset_index(). -/
def multi_station_info (net : Value → Option Response) (stids : List Value)
    (fields : Bool) : Except String Frame :=
  match concatAxis1 (collectInfo net stids fields) with
  | .error e => .error e
  | .ok c => .ok c.T.reset_index

/-- df[label]: the first column carrying the label, when present
(pandas raises KeyError otherwise). -/
def Frame.col? (f : Frame) (lbl : Value) : Option (List Value) :=
  (f.cols.find? (fun c => c.1 == lbl)).map (fun c => c.2)

/-- The cell of row i at the column carrying the given label. -/
def Frame.cellAt (f : Frame) (i : Nat) (lbl : Value) : Option Value :=
  (f.col? lbl).bind (fun col => col.get? i)

/-- df[label] = values: replace the column when the label exists, append
it otherwise; an assignment into the fresh empty DataFrame adopts the
assigned length as the index. -/
def Frame.setCol (f : Frame) (lbl : Value) (vals : List Value) : Frame :=
  if (f.cols.find? (fun c => c.1 == lbl)).isSome then
    { f with cols := f.cols.map (fun c => if c.1 == lbl then (c.1, vals) else c) }
  else if f.cols.isEmpty && f.index.isEmpty then
    { index := rangeIdx vals.length,
      cols := [(lbl, vals)] }
  else
    { f with cols := f.cols ++ [(lbl, vals)] }

/-- pd.notnull on one cell: NaN and None are the null-like values. -/
def notnullV : Value → Bool
  | .nan => false
  | .null => false
  | _ => true

/-- DF.where(pd.notnull(DF), None): every null-like cell becomes the
explicit None marker; all other cells pass through unchanged. -/
def Frame.whereNotnull (f : Frame) : Frame :=
  { f with cols := f.cols.map (fun c =>
      (c.1, c.2.map (fun v => if notnullV v then v else Value.null))) }

/-- The fresh pd.DataFrame() the projection loop assigns into. -/
def emptyFrame : Frame := { index := [], cols := [] }

/-- The conversion dict of the CDEC class, in insertion order: source
field name to canonical column name. -/
def conversion : List (String × String) :=
  [("LATITUDE", "latitude"), ("STATION_ID", "primary_id"),
   ("LONGITUDE", "longitude"), ("STATION_NAME", "station_name"),
   ("ELEVATION", "elevation"), ("AGENCY_NAME", "primary_provider")]

/-- The loop "for c in self.conversion: DF[self.conversion[c]] = info[c]":
a missing source column raises KeyError. -/
def applyConversion : List (String × String) → Frame → Frame → Except String Frame
  | [], _, acc => .ok acc
  | (src, tgt) :: rest, info, acc =>
    match info.col? (Value.str src) with
    | none => .error ("KeyError: " ++ src)
    | some vals => applyConversion rest info (acc.setCol (Value.str tgt) vals)

/-- The projection step of metadata: the conversion loop, the copied
reported coordinates, the constant source/state/timezone columns, and the
final null normalization. -/
def projectMetadata (info : Frame) : Except String Frame :=
  match applyConversion conversion info emptyFrame with
  | .error e => .error e
  | .ok DF0 =>
    match DF0.col? (Value.str "latitude") with
    | none => .error "KeyError: latitude"
    | some lat =>
      let DF1 := DF0.setCol (Value.str "reported_lat") lat
      match DF1.col? (Value.str "longitude") with
      | none => .error "KeyError: longitude"
      | some lon =>
        let DF2 := DF1.setCol (Value.str "reported_long") lon
        let n := DF2.index.length
        let DF3 := ((DF2.setCol (Value.str "source")
                      (List.replicate n (Value.str "cdec"))).setCol
                      (Value.str "state") (List.replicate n (Value.str "CA"))).setCol
                      (Value.str "timezone") (List.replicate n (Value.str "PDT"))
        .ok DF3.whereNotnull

/-- The external world a metadata run interacts with: the directory
response of getAllStations (none when requests.get raises) and the
per-station responses of getStationInfo. -/
structure World where
  directory : Option Response
  station : Value → Option Response

/-- One call handed to db.insert_data. -/
structure SinkCall where
  table : Frame
  description : String
  metadata : Bool
deriving DecidableEq

/-- The directory part of metadata: requests.get(getAllStations),
json.loads, pd.DataFrame(data['STATION']), df['STATION_ID']. None of the
failures here is caught; each propagates and aborts the run. -/
def directoryStationIds (w : World) : Except String (List Value) :=
  match w.directory with
  | none => .error "ConnectionError"
  | some r =>
    match r.body with
    | none => .error "JSONDecodeError"
    | some data =>
      match getStationJson data with
      | none => .error "KeyError: STATION"
      | some station =>
        match pdDataFrameJson station with
        | none => .error "ValueError: DataFrame constructor not properly called"
        | some df =>
          match df.col? (Value.str "STATION_ID") with
          | none => .error "KeyError: STATION_ID"
          | some ids => .ok ids

/-- metadata: directory fetch, per-station fetch (fields defaulting to
False), projection, handoff. The second component is the list of
per-station GET requests the run issued. -/
def metadata (w : World) : Except String SinkCall × List Value :=
  match directoryStationIds w with
  | .error e => (.error e, [])
  | .ok stids =>
    match multi_station_info w.station stids false with
    | .error e => (.error e, stids)
    | .ok info =>
      match projectMetadata info with
      | .error e => (.error e, stids)
      | .ok DF =>
        (.ok { table := DF, description := "CDEC metadata", metadata := true }, stids)

/-- The canonical output columns, in the order the projection creates
them. -/
def canonicalCols : List Value :=
  [Value.str "latitude", Value.str "primary_id", Value.str "longitude",
   Value.str "station_name", Value.str "elevation", Value.str "primary_provider",
   Value.str "reported_lat", Value.str "reported_long",
   Value.str "source", Value.str "state", Value.str "timezone"]

/-! ## The gevent pool behind grequests.map

grequests.map(r, size=n) drains the request list through a pool of n
workers. The transition system below models that scheduler: a request may
start only while fewer than n are in flight, and any in-flight request
may finish. -/

/-- The scheduler state of a grequests.map call: requests not yet sent,
requests in flight, requests completed. -/
structure PoolState where
  pending : List Value
  active : List Value
  done : List Value
deriving DecidableEq

/-- One scheduler step of a pool of the given size. -/
inductive PoolStep (size : Nat) : PoolState → PoolState → Prop where
  | start (r : Value) (rest active finished : List Value)
      (h : active.length < size) :
      PoolStep size ⟨r :: rest, active, finished⟩ ⟨rest, r :: active, finished⟩
  | finish (pending a1 a2 finished : List Value) (r : Value) :
      PoolStep size ⟨pending, a1 ++ r :: a2, finished⟩
                    ⟨pending, a1 ++ a2, r :: finished⟩

/-- The states a grequests.map call over the given requests can reach. -/
inductive PoolReach (size : Nat) (reqs : List Value) : PoolState → Prop where
  | init : PoolReach size reqs ⟨reqs, [], []⟩
  | step {st st' : PoolState} : PoolReach size reqs st →
      PoolStep size st st' → PoolReach size reqs st'

/-! ## Concrete runs used as witnesses and counterexamples -/

/-- Embed a scalar cell value back into JSON, for payload construction. -/
def jsonOfValue : Value → Json
  | .str s => .jstr s
  | .num n => .jnum n
  | .object j => j
  | _ => .jnull

/-- Wrap a record as the JSON object the service returns for it. -/
def recJson (r : Record) : Json :=
  .obj (r.map (fun kv => (kv.1, jsonOfValue kv.2)))

/-- A service payload: an object whose STATION key holds the records. -/
def stationPayload (recs : List Record) : Json :=
  .obj [("STATION", Json.list (recs.map recJson))]

/-- A complete station record carrying every conversion source field. -/
def fullRec (sid : String) : Record :=
  [("STATION_ID", Value.str sid), ("LATITUDE", Value.num 1),
   ("LONGITUDE", Value.num 2), ("STATION_NAME", Value.str "n"),
   ("ELEVATION", Value.num 3), ("AGENCY_NAME", Value.str "a")]

/-- A directory response listing the given station ids. -/
def dirResponse (sids : List String) : Response :=
  { status_code := 200,
    body := some (stationPayload (sids.map (fun s => [("STATION_ID", Value.str s)]))) }

/-- A run in which the single station AAA fully succeeds. -/
def w0 : World :=
  { directory := some (dirResponse ["AAA"]),
    station := fun v =>
      if v == Value.str "AAA" then
        some { status_code := 200, body := some (stationPayload [fullRec "AAA"]) }
      else none }

/-- A run in which the single station XX succeeds but reports an empty
string as its STATION_ID. -/
def w6 : World :=
  { directory := some (dirResponse ["XX"]),
    station := fun v =>
      if v == Value.str "XX" then
        some { status_code := 200, body := some (stationPayload [fullRec ""]) }
      else none }

/-- A run in which the single station BB succeeds but its payload carries
only the STATION_ID field, none of the other conversion source fields. -/
def wc3 : World :=
  { directory := some (dirResponse ["BB"]),
    station := fun v =>
      if v == Value.str "BB" then
        some { status_code := 200,
               body := some (stationPayload [[("STATION_ID", Value.str "BB")]]) }
      else none }

/-- A network in which station A answers with two sensor records. -/
def net2 : Value → Option Response :=
  fun v =>
    if v == Value.str "A" then
      some { status_code := 200,
             body := some (stationPayload
               [[("STATION_ID", Value.str "A"), ("LATITUDE", Value.num 1)],
                [("STATION_ID", Value.str "A"), ("LATITUDE", Value.num 2)]]) }
    else none

/-- The table of the fields-mode run against net2. -/
def t2 : Frame :=
  ((multi_station_info net2 [Value.str "A"] true).toOption).getD emptyFrame

/-- The table of the summary-mode run against net2. -/
def t2s : Frame :=
  ((multi_station_info net2 [Value.str "A"] false).toOption).getD emptyFrame

/-- The sink call of the successful run w0. -/
def w0sink : SinkCall :=
  (((metadata w0).1).toOption).getD { table := emptyFrame, description := "", metadata := false }

/-- The sink call of the successful run w6. -/
def w6sink : SinkCall :=
  (((metadata w6).1).toOption).getD { table := emptyFrame, description := "", metadata := false }

/-- The reading of claim C2 at a table: two distinct rows both carry the
station identifier in a STATION_ID column. -/
def twoRowsShareStation (t : Frame) (sid : String) : Prop :=
  ∃ i j : Nat, i ≠ j ∧
    t.cellAt i (Value.str "STATION_ID") = some (Value.str sid) ∧
    t.cellAt j (Value.str "STATION_ID") = some (Value.str sid)

/-- The reading of claim C6 at a table: every row carries a non-empty
string identifier in the primary_id column. -/
def allRowsNonEmptyId (t : Frame) : Prop :=
  ∀ i < t.index.length, ∃ s : String,
    t.cellAt i (Value.str "primary_id") = some (Value.str s) ∧ s ≠ ""

/-- A run in which the directory request itself fails. -/
def w9 : World := { directory := none, station := fun _ => none }

/-- A frame is well-shaped when every column holds one cell per row. -/
def Frame.WF (f : Frame) : Prop :=
  ∀ c ∈ f.cols, c.2.length = f.index.length

end CDEC

namespace CDEC

/-! ## Theorems -/

/-- Unfolding lemma for one step of the conversion loop. -/
theorem applyConversion_cons (src tgt : String) (rest : List (String × String))
    (info acc : Frame) :
    applyConversion ((src, tgt) :: rest) info acc =
      match info.col? (Value.str src) with
      | none => .error ("KeyError: " ++ src)
      | some vals => applyConversion rest info (acc.setCol (Value.str tgt) vals) := rfl

/-- Claim C1: when the accumulated per-station result list is empty, the
concatenation step of multi_station_info raises the explicit
"No objects to concatenate" error instead of returning a table. -/
theorem multi_station_info_raises_when_all_fail
    (net : Value → Option Response) (stids : List Value) (fields : Bool)
    (h : collectInfo net stids fields = []) :
    multi_station_info net stids fields = .error "No objects to concatenate" := by
  simp [multi_station_info, h, concatAxis1]

/-- Witness for C1: a run over one station whose request fails. -/
theorem multi_station_info_raises_when_all_fail_w :
    collectInfo (fun _ => none) [Value.str "A"] false = [] ∧
    multi_station_info (fun _ => none) [Value.str "A"] false =
      .error "No objects to concatenate" :=
  ⟨rfl, multi_station_info_raises_when_all_fail (fun _ => none) [Value.str "A"] false rfl⟩

/-- Claim C4: the accumulated result list of multi_station_info never
holds more than one result per requested station id. -/
theorem collectInfo_length_le (net : Value → Option Response)
    (stids : List Value) (fields : Bool) :
    (collectInfo net stids fields).length ≤ stids.length := by
  simpa [collectInfo, grequests_map] using
    List.length_filterMap_le (processResponse fields) (stids.map net)

/-- Claim C9: a directory-fetch failure propagates out of metadata and
the run issues no per-station request at all. -/
theorem directory_failure_aborts_before_requests (w : World) (e : String)
    (h : directoryStationIds w = .error e) :
    metadata w = (.error e, []) := by
  simp [metadata, h]

/-- Witness for C9: a run whose directory request raises. -/
theorem directory_failure_aborts_before_requests_w :
    directoryStationIds w9 = .error "ConnectionError" ∧
    metadata w9 = (.error "ConnectionError", []) :=
  ⟨rfl, directory_failure_aborts_before_requests w9 "ConnectionError" rfl⟩

/-- Along every execution of a request pool, the number of in-flight
requests stays within the pool size. -/
theorem poolReach_active_le (size : Nat) (reqs : List Value) (st : PoolState)
    (h : PoolReach size reqs st) : st.active.length ≤ size := by
  induction h with
  | init => simp
  | step hr hstep ih =>
    cases hstep with
    | start r rest active finished hlt => simpa using hlt
    | finish pending a1 a2 finished r =>
      simp only [List.length_append, List.length_cons] at ih ⊢
      omega

/-- Claim C10: multi_station_info dispatches its batch through
grequests.map with the pool size it fixes to 1, so every reachable
scheduler state has at most one request in flight: the requests execute
serially. -/
theorem pool_ceiling_one (reqs : List Value) (st : PoolState)
    (h : PoolReach grequests_map_size reqs st) : st.active.length ≤ 1 :=
  poolReach_active_le grequests_map_size reqs st h

/-- Witness for C10: the initial state of a one-request batch. -/
theorem pool_ceiling_one_w :
    PoolReach grequests_map_size [Value.str "A"]
      { pending := [Value.str "A"], active := [], done := [] } ∧
    (PoolState.mk [Value.str "A"] [] []).active.length ≤ 1 :=
  ⟨PoolReach.init,
   pool_ceiling_one [Value.str "A"] (PoolState.mk [Value.str "A"] [] []) PoolReach.init⟩

/-- Counterexample to claim C2: in fields mode, a station whose payload
holds two sensor records does not yield two rows sharing the station
identifier — the returned table has no STATION_ID column at all, because
concat(axis=1).T leaves fields-mode records as columns. -/
theorem fields_mode_records_not_rows_cx :
    multi_station_info net2 [Value.str "A"] true = .ok t2 ∧
    t2.col? (Value.str "STATION_ID") = none ∧
    ¬ twoRowsShareStation t2 "A" := by
  refine ⟨rfl, rfl, ?_⟩
  rintro ⟨i, j, hij, hi, hj⟩
  have hc : t2.col? (Value.str "STATION_ID") = none := rfl
  rw [Frame.cellAt, hc] at hi
  simp at hi

/-- Amended claim C2: in fields mode both sensor records of station A
appear in the returned table, but as two separate data columns of the
transposed table, each carrying the station identifier in the STATION_ID
row; in summary mode only the first record of the station is kept, as one
row. -/
theorem fields_mode_records_as_columns :
    multi_station_info net2 [Value.str "A"] true = .ok t2 ∧
    t2.cols.map Prod.fst = [Value.str "index", Value.num 0, Value.num 1] ∧
    t2.cellAt 0 (Value.str "index") = some (Value.str "STATION_ID") ∧
    t2.cellAt 0 (Value.num 0) = some (Value.str "A") ∧
    t2.cellAt 0 (Value.num 1) = some (Value.str "A") ∧
    t2.cellAt 1 (Value.num 0) = some (Value.num 1) ∧
    t2.cellAt 1 (Value.num 1) = some (Value.num 2) ∧
    multi_station_info net2 [Value.str "A"] false = .ok t2s ∧
    t2s.index.length = 1 ∧
    t2s.cellAt 0 (Value.str "STATION_ID") = some (Value.str "A") ∧
    t2s.cellAt 0 (Value.str "LATITUDE") = some (Value.num 1) :=
  ⟨rfl, rfl, rfl, rfl, rfl, rfl, rfl, rfl, rfl, rfl, rfl⟩

/-- Counterexample to claim C3: a run in which one station succeeded but
its payload lacked the LATITUDE source field; metadata raises a KeyError
instead of handing any table to the sink. -/
theorem canonical_cols_missing_field_cx :
    directoryStationIds wc3 = .ok [Value.str "BB"] ∧
    (collectInfo wc3.station [Value.str "BB"] false).length = 1 ∧
    (metadata wc3).1 = .error "KeyError: LATITUDE" :=
  ⟨rfl, rfl, rfl⟩

/-- Counterexample to claim C6: a run in which the single station reports
an empty string as its STATION_ID; metadata hands the sink a table whose
only row carries an empty primary_id. -/
theorem metadata_empty_id_cx :
    (metadata w6).1 = .ok w6sink ∧
    w6sink.table.cellAt 0 (Value.str "primary_id") = some (Value.str "") ∧
    ¬ allRowsNonEmptyId w6sink.table := by
  refine ⟨rfl, rfl, fun h => ?_⟩
  obtain ⟨s, hs, hne⟩ := h 0 (by decide)
  have hc : w6sink.table.cellAt 0 (Value.str "primary_id") =
      some (Value.str "") := rfl
  rw [hc] at hs
  simp at hs
  exact hne hs.symm

/-- A successful metadata run decomposes into a successful directory
fetch, a successful multi_station_info call in summary mode over exactly
those ids, and a successful projection of the resulting table. -/
theorem metadata_ok_decomp (w : World) (sink : SinkCall)
    (h : (metadata w).1 = .ok sink) :
    ∃ stids info, directoryStationIds w = .ok stids ∧
      multi_station_info w.station stids false = .ok info ∧
      projectMetadata info = .ok sink.table := by
  unfold metadata at h
  cases hd : directoryStationIds w with
  | error e => simp only [hd] at h; exact Except.noConfusion h
  | ok stids =>
    simp only [hd] at h
    cases hm : multi_station_info w.station stids false with
    | error e => simp only [hm] at h; exact Except.noConfusion h
    | ok info =>
      simp only [hm] at h
      cases hp : projectMetadata info with
      | error e => simp only [hp] at h; exact Except.noConfusion h
      | ok DF =>
        simp only [hp] at h
        simp at h
        subst h
        exact ⟨stids, info, rfl, hm, hp⟩

/-- A successful conversion loop exposes the six source columns of the
info table and builds exactly the six canonical data columns from them,
with the index adopted from the first assignment. -/
theorem applyConversion_conversion_ok (info DF0 : Frame)
    (h : applyConversion conversion info emptyFrame = .ok DF0) :
    ∃ v1 v2 v3 v4 v5 v6,
      info.col? (Value.str "LATITUDE") = some v1 ∧
      info.col? (Value.str "STATION_ID") = some v2 ∧
      info.col? (Value.str "LONGITUDE") = some v3 ∧
      info.col? (Value.str "STATION_NAME") = some v4 ∧
      info.col? (Value.str "ELEVATION") = some v5 ∧
      info.col? (Value.str "AGENCY_NAME") = some v6 ∧
      DF0 = { index := rangeIdx v1.length,
              cols := [(Value.str "latitude", v1), (Value.str "primary_id", v2),
                       (Value.str "longitude", v3), (Value.str "station_name", v4),
                       (Value.str "elevation", v5), (Value.str "primary_provider", v6)] } := by
  rw [show conversion =
        ("LATITUDE", "latitude") :: ("STATION_ID", "primary_id") ::
        ("LONGITUDE", "longitude") :: ("STATION_NAME", "station_name") ::
        ("ELEVATION", "elevation") :: [("AGENCY_NAME", "primary_provider")] from rfl,
      applyConversion_cons] at h
  cases h1 : info.col? (Value.str "LATITUDE") with
  | none => simp only [h1] at h; exact Except.noConfusion h
  | some v1 =>
  simp only [h1, applyConversion_cons] at h
  cases h2 : info.col? (Value.str "STATION_ID") with
  | none => simp only [h2] at h; exact Except.noConfusion h
  | some v2 =>
  simp only [h2, applyConversion_cons] at h
  cases h3 : info.col? (Value.str "LONGITUDE") with
  | none => simp only [h3] at h; exact Except.noConfusion h
  | some v3 =>
  simp only [h3, applyConversion_cons] at h
  cases h4 : info.col? (Value.str "STATION_NAME") with
  | none => simp only [h4] at h; exact Except.noConfusion h
  | some v4 =>
  simp only [h4, applyConversion_cons] at h
  cases h5 : info.col? (Value.str "ELEVATION") with
  | none => simp only [h5] at h; exact Except.noConfusion h
  | some v5 =>
  simp only [h5, applyConversion_cons] at h
  cases h6 : info.col? (Value.str "AGENCY_NAME") with
  | none => simp only [h6] at h; exact Except.noConfusion h
  | some v6 =>
  simp only [h6, applyConversion, Except.ok.injEq] at h
  exact ⟨v1, v2, v3, v4, v5, v6, rfl, rfl, rfl, rfl, rfl, rfl, by rw [← h]; rfl⟩

/-- The default RangeIndex has as many labels as rows. -/
theorem rangeIdx_length (n : Nat) : (rangeIdx n).length = n := by
  simp [rangeIdx]

/-- A successful projection exposes the six source columns of the info
table and yields exactly the null-normalized eleven-column table built
from them: six converted columns, the two copied reported coordinates,
and the three constant columns. -/
theorem projectMetadata_ok (info DF : Frame)
    (h : projectMetadata info = .ok DF) :
    ∃ v1 v2 v3 v4 v5 v6,
      info.col? (Value.str "LATITUDE") = some v1 ∧
      info.col? (Value.str "STATION_ID") = some v2 ∧
      info.col? (Value.str "LONGITUDE") = some v3 ∧
      info.col? (Value.str "STATION_NAME") = some v4 ∧
      info.col? (Value.str "ELEVATION") = some v5 ∧
      info.col? (Value.str "AGENCY_NAME") = some v6 ∧
      DF = Frame.whereNotnull
        { index := rangeIdx v1.length,
          cols := [(Value.str "latitude", v1), (Value.str "primary_id", v2),
                   (Value.str "longitude", v3), (Value.str "station_name", v4),
                   (Value.str "elevation", v5), (Value.str "primary_provider", v6),
                   (Value.str "reported_lat", v1), (Value.str "reported_long", v3),
                   (Value.str "source", List.replicate v1.length (Value.str "cdec")),
                   (Value.str "state", List.replicate v1.length (Value.str "CA")),
                   (Value.str "timezone", List.replicate v1.length (Value.str "PDT"))] } := by
  unfold projectMetadata at h
  cases hA : applyConversion conversion info emptyFrame with
  | error e => simp only [hA] at h; exact Except.noConfusion h
  | ok DF0 =>
  simp only [hA] at h
  obtain ⟨v1, v2, v3, v4, v5, v6, h1, h2, h3, h4, h5, h6, rfl⟩ :=
    applyConversion_conversion_ok info DF0 hA
  have h' : Except.ok (Frame.whereNotnull
      { index := rangeIdx v1.length,
        cols := [(Value.str "latitude", v1), (Value.str "primary_id", v2),
                 (Value.str "longitude", v3), (Value.str "station_name", v4),
                 (Value.str "elevation", v5), (Value.str "primary_provider", v6),
                 (Value.str "reported_lat", v1), (Value.str "reported_long", v3),
                 (Value.str "source",
                   List.replicate (rangeIdx v1.length).length (Value.str "cdec")),
                 (Value.str "state",
                   List.replicate (rangeIdx v1.length).length (Value.str "CA")),
                 (Value.str "timezone",
                   List.replicate (rangeIdx v1.length).length (Value.str "PDT"))] })
      = Except.ok DF := h
  rw [rangeIdx_length] at h'
  exact ⟨v1, v2, v3, v4, v5, v6, h1, h2, h3, h4, h5, h6, (Except.ok.inj h').symm⟩

/-- Claim C3 (amended part): any table metadata hands to the sink
carries exactly the canonical column set, in projection order. -/
theorem metadata_table_canonical_cols (w : World) (sink : SinkCall)
    (h : (metadata w).1 = .ok sink) :
    sink.table.cols.map Prod.fst = canonicalCols := by
  obtain ⟨stids, info, hd, hm, hp⟩ := metadata_ok_decomp w sink h
  obtain ⟨v1, v2, v3, v4, v5, v6, h1, h2, h3, h4, h5, h6, hDF⟩ :=
    projectMetadata_ok info sink.table hp
  rw [hDF]
  rfl

/-- Witness for the amended C3: the fully successful run w0. -/
theorem metadata_table_canonical_cols_w :
    (metadata w0).1 = .ok w0sink ∧
    w0sink.table.cols.map Prod.fst = canonicalCols :=
  ⟨rfl, metadata_table_canonical_cols w0 w0sink rfl⟩

/-- Claim C7: in the table handed to the sink, the reported_lat column
equals the latitude column and the reported_long column equals the
longitude column — they are copies taken at projection time, and the
final null normalization maps both columns identically. -/
theorem reported_coords_equal_mapped (w : World) (sink : SinkCall)
    (h : (metadata w).1 = .ok sink) :
    sink.table.col? (Value.str "reported_lat") =
      sink.table.col? (Value.str "latitude") ∧
    sink.table.col? (Value.str "reported_long") =
      sink.table.col? (Value.str "longitude") := by
  obtain ⟨stids, info, hd, hm, hp⟩ := metadata_ok_decomp w sink h
  obtain ⟨v1, v2, v3, v4, v5, v6, h1, h2, h3, h4, h5, h6, hDF⟩ :=
    projectMetadata_ok info sink.table hp
  rw [hDF]
  exact ⟨rfl, rfl⟩

/-- Witness for C7: the successful run w0. -/
theorem reported_coords_equal_mapped_w :
    (metadata w0).1 = .ok w0sink ∧
    w0sink.table.col? (Value.str "reported_lat") =
      w0sink.table.col? (Value.str "latitude") ∧
    w0sink.table.col? (Value.str "reported_long") =
      w0sink.table.col? (Value.str "longitude") :=
  ⟨rfl, (reported_coords_equal_mapped w0 w0sink rfl).1,
        (reported_coords_equal_mapped w0 w0sink rfl).2⟩

/-- After the null-normalization pass no cell is NaN. -/
theorem whereNotnull_no_nan (f : Frame) :
    ∀ c ∈ f.whereNotnull.cols, ∀ v ∈ c.2, v ≠ Value.nan := by
  intro c hc v hv
  simp only [Frame.whereNotnull, List.mem_map] at hc
  obtain ⟨c0, hc0, rfl⟩ := hc
  simp only [List.mem_map] at hv
  obtain ⟨v0, hv0, rfl⟩ := hv
  cases v0 <;> simp [notnullV]

/-- Claim C8: every cell of the table handed to the sink is either a
genuine value or the explicit None marker; no NaN (the only null-like
value distinct from the marker) survives the normalization pass. -/
theorem no_nan_after_normalization (w : World) (sink : SinkCall)
    (h : (metadata w).1 = .ok sink) :
    ∀ c ∈ sink.table.cols, ∀ v ∈ c.2, v ≠ Value.nan := by
  obtain ⟨stids, info, hd, hm, hp⟩ := metadata_ok_decomp w sink h
  obtain ⟨v1, v2, v3, v4, v5, v6, h1, h2, h3, h4, h5, h6, hDF⟩ :=
    projectMetadata_ok info sink.table hp
  rw [hDF]
  exact whereNotnull_no_nan _

/-- Witness for C8: a concrete cell of the successful run w0. -/
theorem no_nan_after_normalization_w :
    (metadata w0).1 = .ok w0sink ∧
    (Value.str "latitude", [Value.num 1]) ∈ w0sink.table.cols ∧
    Value.num 1 ≠ Value.nan :=
  ⟨rfl, by decide,
   no_nan_after_normalization w0 w0sink rfl
     (Value.str "latitude", [Value.num 1]) (by decide) (Value.num 1) (by decide)⟩

/-- In summary mode every accumulated entry is a single-row Series. -/
theorem collectInfo_false_series (net : Value → Option Response)
    (stids : List Value) :
    ∀ e ∈ collectInfo net stids false, ∃ s, e = Entry.series s := by
  intro e he
  simp only [collectInfo, grequests_map, List.mem_filterMap] at he
  obtain ⟨ors, _, hor⟩ := he
  cases ors with
  | none => simp [processResponse] at hor
  | some r =>
    by_cases h4 : r.status_code < 400
    · by_cases h2 : r.status_code = 200
      · cases hb : r.body with
        | none => simp [processResponse, h4, h2, hb] at hor
        | some data =>
          cases hg : getStationJson data with
          | none => simp [processResponse, h4, h2, hb, hg] at hor
          | some station =>
            cases hd : pdDataFrameJson station with
            | none => simp [processResponse, h4, h2, hb, hg, hd] at hor
            | some d =>
              simp only [processResponse, h4, h2, hb, hg, hd, if_pos, if_true] at hor
              simp only [Bool.false_eq_true, if_false] at hor
              rw [if_pos (by norm_num : (200 : Nat) < 400)] at hor
              rw [Option.map_eq_some'] at hor
              obtain ⟨s, _, rfl⟩ := hor
              exact ⟨s, rfl⟩
      · simp [processResponse, h4, h2] at hor
    · simp [processResponse, h4] at hor

/-- Flattening a list of singleton column lists keeps one element per
entry. -/
theorem flatten_singletons_length (dfs : List Entry)
    (hone : ∀ e ∈ dfs, (Entry.columns e).length = 1) :
    ((dfs.map Entry.columns).flatten).length = dfs.length := by
  induction dfs with
  | nil => rfl
  | cons e es ih =>
    simp only [List.map_cons, List.flatten_cons, List.length_append,
      List.length_cons]
    rw [hone e (by simp), ih (fun x hx => hone x (by simp [hx]))]
    omega

/-- A successful concatenation is well-shaped. -/
theorem concatAxis1_ok_WF (dfs : List Entry) (c : Frame)
    (h : concatAxis1 dfs = .ok c) : Frame.WF c := by
  cases dfs with
  | nil => simp [concatAxis1] at h
  | cons e es =>
    simp only [concatAxis1] at h
    injection h with h
    subst h
    intro col hcol
    simp only [List.mem_map] at hcol
    obtain ⟨c0, _, rfl⟩ := hcol
    simp

/-- A transposed frame is well-shaped. -/
theorem T_WF (f : Frame) : Frame.WF (Frame.T f) := by
  intro c hc
  simp only [Frame.T, List.mem_map] at hc
  obtain ⟨p, _, rfl⟩ := hc
  simp [Frame.T]

/-- reset_index preserves well-shapedness. -/
theorem reset_index_WF (f : Frame) (h : Frame.WF f) :
    Frame.WF f.reset_index := by
  intro c hc
  simp only [Frame.reset_index, List.mem_cons] at hc
  rcases hc with rfl | hc
  · simp [Frame.reset_index, rangeIdx_length]
  · simp only [Frame.reset_index, rangeIdx_length]
    exact h c hc

/-- A successful multi_station_info result is well-shaped: every column
holds one cell per row. -/
theorem msi_WF (net : Value → Option Response) (stids : List Value)
    (fields : Bool) (info : Frame)
    (h : multi_station_info net stids fields = .ok info) : Frame.WF info := by
  unfold multi_station_info at h
  cases hc : concatAxis1 (collectInfo net stids fields) with
  | error e => simp only [hc] at h; exact Except.noConfusion h
  | ok c =>
    simp only [hc] at h
    injection h with h
    subst h
    exact reset_index_WF _ (T_WF c)

/-- A column read out of a well-shaped frame has one cell per row. -/
theorem col?_length_of_WF (f : Frame) (hWF : Frame.WF f) (lbl : Value)
    (v : List Value) (h : f.col? lbl = some v) : v.length = f.index.length := by
  unfold Frame.col? at h
  rw [Option.map_eq_some'] at h
  obtain ⟨c, hfind, rfl⟩ := h
  exact hWF c (List.mem_of_find?_eq_some hfind)

/-- In summary mode the concatenated, transposed, reindexed table has
exactly one row per accumulated per-station entry. -/
theorem msi_false_rows (net : Value → Option Response) (stids : List Value)
    (info : Frame) (h : multi_station_info net stids false = .ok info) :
    info.index.length = (collectInfo net stids false).length := by
  unfold multi_station_info at h
  cases hc : concatAxis1 (collectInfo net stids false) with
  | error e => simp only [hc] at h; exact Except.noConfusion h
  | ok c =>
    simp only [hc] at h
    injection h with h
    subst h
    have hl : (Frame.reset_index (Frame.T c)).index.length = c.cols.length := by
      simp [Frame.reset_index, Frame.T, rangeIdx]
    rw [hl]
    cases hd : collectInfo net stids false with
    | nil => rw [hd] at hc; simp [concatAxis1] at hc
    | cons e es =>
      rw [hd] at hc
      simp only [concatAxis1] at hc
      injection hc with hc
      rw [← hc]
      simp only [List.length_map, List.length_cons]
      have hone : ∀ x ∈ e :: es, (Entry.columns x).length = 1 := by
        intro x hx
        obtain ⟨s, rfl⟩ := collectInfo_false_series net stids x (hd ▸ hx)
        rfl
      have := flatten_singletons_length (e :: es) hone
      simpa using this

/-- Claim C6 (amended part): the table handed to the sink has exactly
one row per entry the per-station loop accumulated - a station
contributes an entry exactly when its response was OK, pd.DataFrame
accepted its STATION payload and, in summary mode, the frame had a first
row. Stations that failed or were skipped contribute no row. Nothing
validates the accumulated entries: an off-shape payload pd.DataFrame
accepts still yields its row (with None in every canonical cell), and
the identifier is copied unvalidated. -/
theorem metadata_rows_are_successes (w : World) (stids : List Value)
    (sink : SinkCall) (hdir : directoryStationIds w = .ok stids)
    (h : (metadata w).1 = .ok sink) :
    sink.table.index.length = (collectInfo w.station stids false).length := by
  obtain ⟨stids', info, hd', hm, hp⟩ := metadata_ok_decomp w sink h
  rw [hdir] at hd'
  injection hd' with hd'
  subst hd'
  obtain ⟨v1, v2, v3, v4, v5, v6, h1, h2, h3, h4, h5, h6, hDF⟩ :=
    projectMetadata_ok info sink.table hp
  have hidx : sink.table.index.length = v1.length := by
    rw [hDF]
    simp [Frame.whereNotnull, rangeIdx_length]
  have hWF : v1.length = info.index.length :=
    col?_length_of_WF info (msi_WF w.station stids false info hm)
      (Value.str "LATITUDE") v1 h1
  rw [hidx, hWF, msi_false_rows w.station stids info hm]

/-- Witness for the amended C6: the run w6 with its one accumulated
station. -/
theorem metadata_rows_are_successes_w :
    directoryStationIds w6 = .ok [Value.str "XX"] ∧
    (metadata w6).1 = .ok w6sink ∧
    w6sink.table.index.length =
      (collectInfo w6.station [Value.str "XX"] false).length :=
  ⟨rfl, rfl, metadata_rows_are_successes w6 [Value.str "XX"] w6sink rfl rfl⟩

end CDEC
